import Mathlib

/-!
Shallow embedding of the zoom / viewport / render core of the
neo4j-browser graph visualization:

* `Graph.zoomByType` — the React component's zoom handler
  (src/src/neo4j-arc/graph-visualization/GraphVisualizer/Graph/Graph.tsx,
  lines 256-270): IN adds 0.3 to the zoom level, OUT subtracts 0.3,
  FIT resets the zoom level to 1.  No clamping occurs.
* `Visualization` (src/unnamed/part_002) — the canvas-based
  visualization class: `zoomByType` (IN and OUT branches are empty,
  FIT sets `scale` from `getZoomScaleFactorToFitWholeGraph` and
  re-renders), `render` (geometry tick, clear, translate to the canvas
  center, scale, draw every node), and the `on`/`trigger` callback
  registry.
* The wheel-zoom gating filter of the d3-zoom based `Visualization`
  variant (src/unnamed/part_001, lines 110-119) together with
  `Graph.handleDisplayZoomWheelInfoMessage` (Graph.tsx, lines 228-240).

Numbers are embedded as rationals: the source's JavaScript numbers are
used here only through exact decimal literals and the four arithmetic
operations, so every computation in scope is exact.
-/

namespace Neo4jViz

/-- Modelled from the spec: the constants `ZOOM_MIN_SCALE` and
`ZOOM_MAX_SCALE` are imported by the source from `constants.ts`, which
is not part of the provided sources.  The spec only requires a positive
minimum below the initial scale 1 and a fixed maximum above it
("minimum allowed scale", "fixed maximum scale", scale starts at 1);
the upstream values 0.1 and 2.0 are used. -/
def ZOOM_MIN_SCALE : ℚ := 1/10

/-- Modelled from the spec: see `ZOOM_MIN_SCALE`. -/
def ZOOM_MAX_SCALE : ℚ := 2

/-- The zoom commands of `types.ts` (`ZoomType.IN | OUT | FIT`). -/
inductive ZoomType where
  | IN : ZoomType
  | OUT : ZoomType
  | FIT : ZoomType
deriving DecidableEq, Repr

/-- Clamping to the scale extent, as the spec's `[minScale, maxScale]`
interval.  Used only to state spec-side properties; the source code in
scope performs no clamping. -/
def clampScale (lo hi s : ℚ) : ℚ := max lo (min hi s)

namespace Graph

/-- `Graph.zoomByType` from Graph.tsx lines 256-270, acting on the
component state's `zoomLevel`:
IN does `zoomLevel + 0.3`, OUT does `zoomLevel - 0.3`, FIT sets
`zoomLevel` to 1 (the commented `zoomToFitViewport` call is dead code). -/
def zoomByType (zoomLevel : ℚ) : ZoomType → ℚ
  | ZoomType.IN => zoomLevel + 3/10
  | ZoomType.OUT => zoomLevel - 3/10
  | ZoomType.FIT => 1

end Graph

/-- `NodeModel`: the position of a node as used by the visualization
(`node.x`, `node.y`). -/
structure NodeModel where
  x : ℚ
  y : ℚ
deriving DecidableEq, Repr

/-- A relationship between two nodes, identified by indices into the
node list (`RelationshipModel` source/target). -/
structure RelationshipModel where
  source : ℕ
  target : ℕ
deriving DecidableEq, Repr

/-- `GraphModel`: node and relationship sequences. -/
structure GraphModel where
  nodes : List NodeModel
  relationships : List RelationshipModel
deriving DecidableEq, Repr

/-- The node radius used by the drawing code (`ctx.arc(node.x, node.y, 50, ...)`
in part_002 `drawNode`). -/
def nodeRadius : ℚ := 50

/-- An axis-aligned bounding box. -/
structure BoundingBox where
  minX : ℚ
  maxX : ℚ
  minY : ℚ
  maxY : ℚ
deriving DecidableEq, Repr

def BoundingBox.width (b : BoundingBox) : ℚ := b.maxX - b.minX

def BoundingBox.height (b : BoundingBox) : ℚ := b.maxY - b.minY

def BoundingBox.centerX (b : BoundingBox) : ℚ := (b.minX + b.maxX) / 2

def BoundingBox.centerY (b : BoundingBox) : ℚ := (b.minY + b.maxY) / 2

/-- Extend a bounding box with one node's circle. -/
def BoundingBox.extend (b : BoundingBox) (n : NodeModel) : BoundingBox :=
  { minX := min b.minX (n.x - nodeRadius)
    maxX := max b.maxX (n.x + nodeRadius)
    minY := min b.minY (n.y - nodeRadius)
    maxY := max b.maxY (n.y + nodeRadius) }

/-- The bounding box of one node's circle. -/
def nodeBox (n : NodeModel) : BoundingBox :=
  { minX := n.x - nodeRadius
    maxX := n.x + nodeRadius
    minY := n.y - nodeRadius
    maxY := n.y + nodeRadius }

/-- Modelled from the spec: `GraphModel.getBoundingBox` lives in
`models/Graph.ts`, which is not among the provided sources.  Spec §4.2:
"a `boundingBox()` (min/max over all node centers ± radius)", and §8:
for the empty graph the bounding box is "the zero-size box at origin". -/
def GraphModel.getBoundingBox (g : GraphModel) : BoundingBox :=
  match g.nodes with
  | [] => ⟨0, 0, 0, 0⟩
  | n :: ns => ns.foldl BoundingBox.extend (nodeBox n)

namespace Visualization

/-- The per-axis shrink factor of part_002 lines 186-188:
`graphDim > canvasDim ? canvasDim / graphDim : 1` (the source computes
this once for the width — `widthRatio` — and once for the height —
`heightRatio`). -/
def axisFit (canvasDim graphDim : ℚ) : ℚ :=
  if graphDim > canvasDim then canvasDim / graphDim else 1

/-- `Visualization.getZoomScaleFactorToFitWholeGraph` from part_002
lines 174-191: returns 1.0 when either canvas dimension is 0; otherwise
pads the graph's bounding box by 120 in each dimension
(`graphWidth = graphBBox.width + 120`, `graphHeight = graphBBox.height + 120`)
and returns the smaller of the two per-axis shrink factors. -/
def getZoomScaleFactorToFitWholeGraph
    (canvasWidth canvasHeight : ℚ) (g : GraphModel) : ℚ :=
  if canvasWidth = 0 ∨ canvasHeight = 0 then 1
  else
    min (axisFit canvasWidth (g.getBoundingBox.width + 120))
      (axisFit canvasHeight (g.getBoundingBox.height + 120))

/-- The state of a `Visualization` that `zoomByType` touches: the
current scale together with the canvas and graph it reads for FIT. -/
structure State where
  scale : ℚ
  canvasWidth : ℚ
  canvasHeight : ℚ
  graph : GraphModel
deriving DecidableEq, Repr

/-- `Visualization.zoomByType` from part_002 lines 156-167: the IN and
OUT branches have empty bodies, and FIT runs `zoomToFitViewport`
(part_002 lines 169-172), which assigns
`this.scale = this.getZoomScaleFactorToFitWholeGraph()` and re-renders.
(`adjustZoomMinScaleExtentToFitGraph` in this variant is a no-op: its
whole body is commented out.) -/
def zoomByType (st : State) : ZoomType → State
  | ZoomType.IN => st
  | ZoomType.OUT => st
  | ZoomType.FIT =>
      { st with
        scale := getZoomScaleFactorToFitWholeGraph st.canvasWidth st.canvasHeight st.graph }

end Visualization

/-- One drawing operation issued to the 2D context. -/
inductive DrawCmd where
  | clear : DrawCmd
  | node (cx cy : ℚ) : DrawCmd
  | relationship (x1 y1 x2 y2 : ℚ) : DrawCmd
deriving DecidableEq, Repr

def DrawCmd.isRelationship : DrawCmd → Bool
  | DrawCmd.relationship _ _ _ _ => true
  | _ => false

/-- The screen-space position of a model-space point under the transform
set up in part_002 `render` lines 103-107:
`ctx.translate(canvasWidth / 2, canvasHeight / 2); ctx.scale(scale, scale)`,
so a point drawn at `(x, y)` lands at
`(canvasWidth / 2 + scale * x, canvasHeight / 2 + scale * y)`. -/
def screenMap (canvasWidth canvasHeight scale x y : ℚ) : ℚ × ℚ :=
  (canvasWidth / 2 + scale * x, canvasHeight / 2 + scale * y)

/-- Modelled from the spec: `GraphGeometryModel` lives in
`GraphGeometryModel.ts`, which is not among the provided sources.  Spec
§3: the geometry frame is "ephemeral, recomputed every tick … derived
purely from current Graph + style rules"; `onTick` therefore replaces
the stored frame with the one derived from the current node positions. -/
def GraphGeometryModel.onTick (g : GraphModel) : List (ℚ × ℚ) :=
  g.nodes.map fun n => (n.x, n.y)

namespace Visualization

/-- The drawing commands issued by the body of part_002 `render`
(lines 103-108) once a 2D context is available: reset/clear the whole
canvas, install the translate-then-scale transform, and draw each node
of `graph.nodes()` (and nothing else — in particular, no relationship
geometry is drawn). -/
def renderCommands (canvasWidth canvasHeight scale : ℚ) (g : GraphModel) : List DrawCmd :=
  DrawCmd.clear ::
    g.nodes.map fun n =>
      DrawCmd.node (screenMap canvasWidth canvasHeight scale n.x n.y).1
        (screenMap canvasWidth canvasHeight scale n.x n.y).2

/-- The `Visualization` state that `render` can touch. -/
structure RenderState where
  geometryFrame : List (ℚ × ℚ)
  graph : GraphModel
  scale : ℚ
deriving DecidableEq, Repr

/-- The outcome of one `render` call: the possibly-updated state, the
diagnostics written with `console.error`, and the drawing commands
issued. -/
structure RenderResult where
  state : RenderState
  diagnostics : List String
  commands : List DrawCmd
deriving DecidableEq, Repr

/-- `Visualization.render` from part_002 lines 93-109:
`this.geometry.onTick(this.graph)` runs first, THEN the 2D context is
requested; if it is unavailable the function logs `'null ctx'` and
returns without drawing; otherwise it clears the canvas and draws every
node under the translate-then-scale transform.  Both paths return
normally (no exception). -/
def render (st : RenderState) (canvasWidth canvasHeight : ℚ)
    (ctxAvailable : Bool) : RenderResult :=
  let st1 := { st with geometryFrame := GraphGeometryModel.onTick st.graph }
  if ctxAvailable then
    { state := st1
      diagnostics := []
      commands := renderCommands canvasWidth canvasHeight st.scale st.graph }
  else
    { state := st1
      diagnostics := ["null ctx"]
      commands := [] }

end Visualization

/-- A wheel input event, restricted to the fields the zoom filter reads. -/
structure WheelEvent where
  metaKey : Bool
  ctrlKey : Bool
  shiftKey : Bool
deriving DecidableEq, Repr

/-- `e.metaKey || e.ctrlKey || e.shiftKey` from part_001 line 112. -/
def modKeySelected (e : WheelEvent) : Bool :=
  e.metaKey || e.ctrlKey || e.shiftKey

/-- The `zoomBehavior.filter` of part_001 lines 110-119, applied to a
wheel event.  Returns `(allowZoom, infoSignal)`: when the
requires-modifier-key policy is on and no modifier is held, the filter
invokes `onDisplayZoomWheelInfoMessage()` (the info signal) and returns
`false`, so d3-zoom discards the event; otherwise it returns `true` and
sends no signal. -/
def zoomFilter (wheelZoomRequiresModKey : Bool) (e : WheelEvent) : Bool × Bool :=
  if wheelZoomRequiresModKey && !(modKeySelected e) then (false, true)
  else (true, false)

namespace Graph

/-- `Graph.handleDisplayZoomWheelInfoMessage` from Graph.tsx lines
228-240, acting on `state.displayingWheelZoomInfoMessage`: when the
message is not already displayed and both `wheelZoomRequiresModKey` and
`wheelZoomInfoMessageEnabled` hold, it calls
`displayZoomWheelInfoMessage(true)`.  Returns the new flag and whether
the message was displayed by this call. -/
def handleDisplayZoomWheelInfoMessage
    (wheelZoomRequiresModKey wheelZoomInfoMessageEnabled : Bool)
    (displaying : Bool) : Bool × Bool :=
  if !displaying && wheelZoomRequiresModKey && wheelZoomInfoMessageEnabled
  then (true, true)
  else (displaying, false)

end Graph

/-- The zoom scale together with the host component's
`displayingWheelZoomInfoMessage` flag. -/
structure WheelState where
  scale : ℚ
  displaying : Bool
deriving DecidableEq, Repr

/-- One wheel event through the pipeline: d3-zoom consults the filter
(part_001 lines 110-119); only if the filter returns `true` does the
zoom behavior update the scale (the library's update function is the
abstract parameter `zoomUpdate`); on `false` the scale is untouched,
the info signal fires, and the host runs
`handleDisplayZoomWheelInfoMessage`.  Returns the new state, whether
the info signal fired, and whether the info message was displayed. -/
def wheelStep (zoomUpdate : ℚ → WheelEvent → ℚ)
    (wheelZoomRequiresModKey wheelZoomInfoMessageEnabled : Bool)
    (st : WheelState) (e : WheelEvent) : WheelState × Bool × Bool :=
  let fr := zoomFilter wheelZoomRequiresModKey e
  if fr.1 then ({ st with scale := zoomUpdate st.scale e }, fr.2, false)
  else
    let hd := Graph.handleDisplayZoomWheelInfoMessage
      wheelZoomRequiresModKey wheelZoomInfoMessageEnabled st.displaying
    ({ st with displaying := hd.1 }, fr.2, hd.2)

/-- A sequence of wheel events; collects the per-event info signals and
displayed flags. -/
def wheelRun (zoomUpdate : ℚ → WheelEvent → ℚ)
    (wheelZoomRequiresModKey wheelZoomInfoMessageEnabled : Bool)
    (st : WheelState) : List WheelEvent → WheelState × List Bool × List Bool
  | [] => (st, [], [])
  | e :: es =>
      let r := wheelStep zoomUpdate wheelZoomRequiresModKey
        wheelZoomInfoMessageEnabled st e
      let rest := wheelRun zoomUpdate wheelZoomRequiresModKey
        wheelZoomInfoMessageEnabled r.1 es
      (rest.1, r.2.1 :: rest.2.1, r.2.2 :: rest.2.2)

/-- A callback registered with `on`; only its identity matters here. -/
abbrev Callback : Type := ℕ

/-- The `callbacks` record of part_002 line 59: a map from event name
to the list of registered callbacks (absent keys behave as `[]`,
matching `this.callbacks[event] ?? []`). -/
abbrev Callbacks : Type := String → List Callback

/-- The initial `callbacks = {}`. -/
def Callbacks.empty : Callbacks := fun _ => []

namespace Visualization

/-- `Visualization.on` from part_002 lines 210-217 (`on` is a reserved
word in Lean, hence the name `onEvent`): initializes the event's list
if nullish, then pushes the callback at the end. -/
def onEvent (cbs : Callbacks) (event : String) (cb : Callback) : Callbacks :=
  fun e => if e = event then cbs event ++ [cb] else cbs e

/-- `Visualization.trigger` from part_002 lines 219-222: looks up the
callbacks for the event (defaulting to `[]`) and applies each, in
list order, to the trigger's arguments.  The result is the sequence of
invocations `(callback, args)` performed. -/
def trigger (cbs : Callbacks) (event : String) (args : List ℤ) :
    List (Callback × List ℤ) :=
  (cbs event).map fun cb => (cb, args)

/-- Registering a whole list of `(event, callback)` pairs in order. -/
def registerAll (regs : List (String × Callback)) : Callbacks :=
  regs.foldl (fun cbs p => onEvent cbs p.1 p.2) Callbacks.empty

end Visualization

/-! ### Helper lemmas -/

lemma BoundingBox.extend_minX_le_maxX (b : BoundingBox) (n : NodeModel)
    (h : b.minX ≤ b.maxX) : (b.extend n).minX ≤ (b.extend n).maxX :=
  le_trans (min_le_left _ _) (le_trans h (le_max_left _ _))

lemma BoundingBox.extend_minY_le_maxY (b : BoundingBox) (n : NodeModel)
    (h : b.minY ≤ b.maxY) : (b.extend n).minY ≤ (b.extend n).maxY :=
  le_trans (min_le_left _ _) (le_trans h (le_max_left _ _))

lemma foldl_extend_min_le_max (ns : List NodeModel) (b : BoundingBox)
    (hx : b.minX ≤ b.maxX) (hy : b.minY ≤ b.maxY) :
    (ns.foldl BoundingBox.extend b).minX ≤ (ns.foldl BoundingBox.extend b).maxX ∧
      (ns.foldl BoundingBox.extend b).minY ≤ (ns.foldl BoundingBox.extend b).maxY := by
  induction ns generalizing b with
  | nil => exact ⟨hx, hy⟩
  | cons n ns ih =>
      exact ih (b.extend n) (b.extend_minX_le_maxX n hx) (b.extend_minY_le_maxY n hy)

lemma nodeBox_minX_le_maxX (n : NodeModel) : (nodeBox n).minX ≤ (nodeBox n).maxX := by
  simp only [nodeBox, nodeRadius]
  linarith

lemma nodeBox_minY_le_maxY (n : NodeModel) : (nodeBox n).minY ≤ (nodeBox n).maxY := by
  simp only [nodeBox, nodeRadius]
  linarith

/-- The bounding box delivered by the (spec-modelled) `getBoundingBox`
never has negative width or height. -/
lemma getBoundingBox_nonneg (g : GraphModel) :
    0 ≤ g.getBoundingBox.width ∧ 0 ≤ g.getBoundingBox.height := by
  unfold GraphModel.getBoundingBox
  match g.nodes with
  | [] => simp [BoundingBox.width, BoundingBox.height]
  | n :: ns =>
      have h := foldl_extend_min_le_max ns (nodeBox n)
        (nodeBox_minX_le_maxX n) (nodeBox_minY_le_maxY n)
      constructor
      · simpa [BoundingBox.width, sub_nonneg] using h.1
      · simpa [BoundingBox.height, sub_nonneg] using h.2

lemma axisFit_pos (canvasDim graphDim : ℚ) (hc : 0 < canvasDim)
    (hg : 0 < graphDim) : 0 < Visualization.axisFit canvasDim graphDim := by
  unfold Visualization.axisFit
  split
  · exact div_pos hc hg
  · exact one_pos

lemma axisFit_le_one (canvasDim graphDim : ℚ) (_hc : 0 < canvasDim)
    (hg : 0 < graphDim) : Visualization.axisFit canvasDim graphDim ≤ 1 := by
  unfold Visualization.axisFit
  split
  · exact le_of_lt ((div_lt_one hg).mpr (by linarith))
  · exact le_refl 1

/-- Any scale below the per-axis shrink factor shrinks the padded graph
dimension below the canvas dimension. -/
lemma axisFit_fits (canvasDim graphDim s : ℚ) (_hc : 0 < canvasDim)
    (hg : 0 < graphDim) (_hs0 : 0 ≤ s) (hs : s ≤ Visualization.axisFit canvasDim graphDim) :
    s * graphDim ≤ canvasDim := by
  unfold Visualization.axisFit at hs
  by_cases h : graphDim > canvasDim
  · rw [if_pos h] at hs
    calc s * graphDim ≤ canvasDim / graphDim * graphDim :=
          mul_le_mul_of_nonneg_right hs (le_of_lt hg)
      _ = canvasDim := div_mul_cancel₀ _ (ne_of_gt hg)
  · rw [if_neg h] at hs
    calc s * graphDim ≤ 1 * graphDim :=
          mul_le_mul_of_nonneg_right hs (le_of_lt hg)
      _ = graphDim := one_mul _
      _ ≤ canvasDim := le_of_not_lt h

/-- The fit scale is in `(0, 1]` whenever the canvas dimensions are
nonnegative. -/
lemma getZoomScaleFactor_mem_Ioc (canvasWidth canvasHeight : ℚ) (g : GraphModel)
    (hw : 0 ≤ canvasWidth) (hh : 0 ≤ canvasHeight) :
    0 < Visualization.getZoomScaleFactorToFitWholeGraph canvasWidth canvasHeight g ∧
      Visualization.getZoomScaleFactorToFitWholeGraph canvasWidth canvasHeight g ≤ 1 := by
  unfold Visualization.getZoomScaleFactorToFitWholeGraph
  split
  · exact ⟨one_pos, le_refl 1⟩
  · rename_i hzero
    push_neg at hzero
    have hw' : 0 < canvasWidth := lt_of_le_of_ne hw (Ne.symm hzero.1)
    have hh' : 0 < canvasHeight := lt_of_le_of_ne hh (Ne.symm hzero.2)
    have hbb := getBoundingBox_nonneg g
    have hgw : 0 < g.getBoundingBox.width + 120 := by linarith [hbb.1]
    have hgh : 0 < g.getBoundingBox.height + 120 := by linarith [hbb.2]
    constructor
    · exact lt_min (axisFit_pos _ _ hw' hgw) (axisFit_pos _ _ hh' hgh)
    · exact le_trans (min_le_left _ _) (axisFit_le_one _ _ hw' hgw)

/-- `Visualization.zoomByType` only ever touches the `scale` field. -/
lemma Visualization.zoomByType_preserves (st : Visualization.State) (t : ZoomType) :
    (Visualization.zoomByType st t).canvasWidth = st.canvasWidth ∧
      (Visualization.zoomByType st t).canvasHeight = st.canvasHeight ∧
      (Visualization.zoomByType st t).graph = st.graph := by
  cases t <;> simp [Visualization.zoomByType]

/-! ### Claims -/

/-- C1, counterexample: starting from the in-bounds scale 1/2,
`Graph.zoomByType(IN)` yields 1/2 + 0.3 = 0.8, not the claimed
clamp of 1/2 × 1.3 = 0.65 (which lies strictly inside
`[ZOOM_MIN_SCALE, ZOOM_MAX_SCALE]`, so no clamping could mask the
difference). -/
theorem C1_counterexample :
    ZOOM_MIN_SCALE ≤ (1/2 : ℚ) ∧ (1/2 : ℚ) ≤ ZOOM_MAX_SCALE ∧
      Graph.zoomByType (1/2) ZoomType.IN ≠
        clampScale ZOOM_MIN_SCALE ZOOM_MAX_SCALE ((1/2) * (13/10)) := by
  refine ⟨by norm_num [ZOOM_MIN_SCALE], by norm_num [ZOOM_MAX_SCALE], ?_⟩
  norm_num [Graph.zoomByType, clampScale, ZOOM_MIN_SCALE, ZOOM_MAX_SCALE]

/-- C1, amended: `Graph.zoomByType` changes the scale additively, not
multiplicatively — IN sets the scale to s + 0.3 and OUT to s − 0.3 with
no clamping (the increment is the same constant at every starting
scale), while `Visualization.zoomByType` leaves the state unchanged on
IN and OUT. -/
theorem C1_amended_zoom_is_additive (s t : ℚ) (st : Visualization.State) :
    Graph.zoomByType s ZoomType.IN = s + 3/10 ∧
    Graph.zoomByType s ZoomType.OUT = s - 3/10 ∧
    Graph.zoomByType (s + t) ZoomType.IN - (s + t) =
      Graph.zoomByType s ZoomType.IN - s ∧
    Graph.zoomByType (s + t) ZoomType.OUT - (s + t) =
      Graph.zoomByType s ZoomType.OUT - s ∧
    Visualization.zoomByType st ZoomType.IN = st ∧
    Visualization.zoomByType st ZoomType.OUT = st := by
  refine ⟨rfl, rfl, by simp [Graph.zoomByType], by simp [Graph.zoomByType],
    rfl, rfl⟩

/-- C2, counterexample: the scale is not confined to
`[ZOOM_MIN_SCALE, ZOOM_MAX_SCALE]`.  In the Graph component, starting
from the in-bounds scale 1, four `zoomByType(OUT)` steps drive the
scale to −0.2 — negative, hence outside every positive bound.  In the
`Visualization` variant, `zoomByType(FIT)` on a wide graph in a
200×200 canvas sets the scale to 10/511, below `ZOOM_MIN_SCALE`. -/
theorem C2_counterexample :
    (ZOOM_MIN_SCALE ≤ (1 : ℚ) ∧ (1 : ℚ) ≤ ZOOM_MAX_SCALE ∧
      [ZoomType.OUT, ZoomType.OUT, ZoomType.OUT, ZoomType.OUT].foldl
        Graph.zoomByType 1 = -(1/5) ∧ (-(1/5) : ℚ) < 0) ∧
    (Visualization.zoomByType
        ⟨1, 200, 200, ⟨[⟨0, 0⟩, ⟨10000, 0⟩], []⟩⟩ ZoomType.FIT).scale <
      ZOOM_MIN_SCALE := by
  constructor
  · refine ⟨by norm_num [ZOOM_MIN_SCALE], by norm_num [ZOOM_MAX_SCALE], ?_, by norm_num⟩
    norm_num [Graph.zoomByType, List.foldl]
  · norm_num [Visualization.zoomByType, Visualization.getZoomScaleFactorToFitWholeGraph,
      Visualization.axisFit, GraphModel.getBoundingBox, BoundingBox.extend, nodeBox,
      nodeRadius, BoundingBox.width, BoundingBox.height, ZOOM_MIN_SCALE, List.foldl]

/-- C2, amended: in the `Visualization` implementation, any sequence of
`zoomByType` commands keeps the scale strictly positive and at most
`ZOOM_MAX_SCALE` whenever it starts that way (IN and OUT leave the
state untouched and FIT produces a scale in (0, 1]); the scale may,
however, drop below `ZOOM_MIN_SCALE`, and the Graph component's
unclamped additive scale can leave the bounds entirely. -/
theorem C2_amended_scale_stays_positive (st : Visualization.State)
    (ops : List ZoomType) (hw : 0 ≤ st.canvasWidth) (hh : 0 ≤ st.canvasHeight)
    (hs : 0 < st.scale) (hmax : st.scale ≤ ZOOM_MAX_SCALE) :
    0 < (ops.foldl Visualization.zoomByType st).scale ∧
      (ops.foldl Visualization.zoomByType st).scale ≤ ZOOM_MAX_SCALE := by
  induction ops generalizing st with
  | nil => exact ⟨hs, hmax⟩
  | cons op ops ih =>
      have hpres := Visualization.zoomByType_preserves st op
      apply ih
      · rw [hpres.1]; exact hw
      · rw [hpres.2.1]; exact hh
      · cases op with
        | IN => exact hs
        | OUT => exact hs
        | FIT =>
            exact (getZoomScaleFactor_mem_Ioc st.canvasWidth st.canvasHeight
              st.graph hw hh).1
      · cases op with
        | IN => exact hmax
        | OUT => exact hmax
        | FIT =>
            have h1 := (getZoomScaleFactor_mem_Ioc st.canvasWidth st.canvasHeight
              st.graph hw hh).2
            simp only [Visualization.zoomByType]
            rw [ZOOM_MAX_SCALE]
            exact le_trans h1 (by norm_num)

/-- C2, witness for the amended theorem at a concrete state and
command sequence. -/
theorem C2_amended_scale_stays_positive_witness :
    0 < (([ZoomType.FIT, ZoomType.IN, ZoomType.OUT, ZoomType.FIT]).foldl
        Visualization.zoomByType ⟨1, 200, 200, ⟨[⟨0, 0⟩], []⟩⟩).scale ∧
      (([ZoomType.FIT, ZoomType.IN, ZoomType.OUT, ZoomType.FIT]).foldl
        Visualization.zoomByType ⟨1, 200, 200, ⟨[⟨0, 0⟩], []⟩⟩).scale ≤
        ZOOM_MAX_SCALE :=
  C2_amended_scale_stays_positive ⟨1, 200, 200, ⟨[⟨0, 0⟩], []⟩⟩
    [ZoomType.FIT, ZoomType.IN, ZoomType.OUT, ZoomType.FIT]
    (by norm_num) (by norm_num) (by norm_num) (by norm_num [ZOOM_MAX_SCALE])

/-- C7: from any starting scale strictly inside
`[ZOOM_MIN_SCALE, ZOOM_MAX_SCALE]`, `Graph.zoomByType(IN)` followed by
`Graph.zoomByType(OUT)` restores the scale exactly ((s + 0.3) − 0.3 = s
in exact rational arithmetic), which is within every tolerance of the
original; the code performs no clamping, so the no-clamp proviso of the
claim always holds. -/
theorem C7_zoom_in_out_roundtrip (s : ℚ)
    (_h1 : ZOOM_MIN_SCALE < s) (_h2 : s < ZOOM_MAX_SCALE) :
    Graph.zoomByType (Graph.zoomByType s ZoomType.IN) ZoomType.OUT = s := by
  simp [Graph.zoomByType]

/-- C7, witness at the initial scale 1. -/
theorem C7_zoom_in_out_roundtrip_witness :
    Graph.zoomByType (Graph.zoomByType 1 ZoomType.IN) ZoomType.OUT = 1 :=
  C7_zoom_in_out_roundtrip 1 (by norm_num [ZOOM_MIN_SCALE])
    (by norm_num [ZOOM_MAX_SCALE])

/-- C3, amended: for every graph and every viewport of at least 1×1,
`zoomByType(FIT)`'s scale makes the padded bounding box fit inside the
viewport (scaled padded width ≤ canvas width and scaled padded height ≤
canvas height); the render transform, however, centers the model-space
origin at the viewport center, not the bounding box, so the box is
centered only when its own center is the origin. -/
theorem C3_amended_fit_scale_fits (cw ch : ℚ) (g : GraphModel)
    (hw : 1 ≤ cw) (hh : 1 ≤ ch) :
    Visualization.getZoomScaleFactorToFitWholeGraph cw ch g *
        (g.getBoundingBox.width + 120) ≤ cw ∧
      Visualization.getZoomScaleFactorToFitWholeGraph cw ch g *
        (g.getBoundingBox.height + 120) ≤ ch := by
  have hw' : 0 < cw := by linarith
  have hh' : 0 < ch := by linarith
  have hbb := getBoundingBox_nonneg g
  have hgw : 0 < g.getBoundingBox.width + 120 := by linarith [hbb.1]
  have hgh : 0 < g.getBoundingBox.height + 120 := by linarith [hbb.2]
  have hs0 := (getZoomScaleFactor_mem_Ioc cw ch g hw'.le hh'.le).1
  have hcond : ¬(cw = 0 ∨ ch = 0) := by
    push_neg
    exact ⟨ne_of_gt hw', ne_of_gt hh'⟩
  have heq : Visualization.getZoomScaleFactorToFitWholeGraph cw ch g =
      min (Visualization.axisFit cw (g.getBoundingBox.width + 120))
        (Visualization.axisFit ch (g.getBoundingBox.height + 120)) := by
    unfold Visualization.getZoomScaleFactorToFitWholeGraph
    rw [if_neg hcond]
  constructor
  · exact axisFit_fits _ _ _ hw' hgw hs0.le (by rw [heq]; exact min_le_left _ _)
  · exact axisFit_fits _ _ _ hh' hgh hs0.le (by rw [heq]; exact min_le_right _ _)

/-- C3, witness for the amended theorem on a 200×200 canvas with a
single node at the origin. -/
theorem C3_amended_fit_scale_fits_witness :
    Visualization.getZoomScaleFactorToFitWholeGraph 200 200 ⟨[⟨0, 0⟩], []⟩ *
        ((⟨[⟨0, 0⟩], []⟩ : GraphModel).getBoundingBox.width + 120) ≤ 200 ∧
      Visualization.getZoomScaleFactorToFitWholeGraph 200 200 ⟨[⟨0, 0⟩], []⟩ *
        ((⟨[⟨0, 0⟩], []⟩ : GraphModel).getBoundingBox.height + 120) ≤ 200 :=
  C3_amended_fit_scale_fits 200 200 ⟨[⟨0, 0⟩], []⟩ (by norm_num) (by norm_num)

/-- C3, counterexample to the centering part: one node at (100, 0) on
a 200×200 canvas.  `zoomByType(FIT)` picks scale 10/11, and the render
transform sends the bounding-box center (100, 0) to
(100 + 1000/11, 100) ≠ (100, 100), so the box is not centered in the
viewport. -/
theorem C3_counterexample :
    screenMap 200 200
        (Visualization.getZoomScaleFactorToFitWholeGraph 200 200 ⟨[⟨100, 0⟩], []⟩)
        (GraphModel.getBoundingBox ⟨[⟨100, 0⟩], []⟩).centerX
        (GraphModel.getBoundingBox ⟨[⟨100, 0⟩], []⟩).centerY ≠
      (200 / 2, 200 / 2) := by
  norm_num [screenMap, Visualization.getZoomScaleFactorToFitWholeGraph,
    Visualization.axisFit, GraphModel.getBoundingBox, nodeBox, nodeRadius,
    BoundingBox.width, BoundingBox.height, BoundingBox.centerX, BoundingBox.centerY,
    Prod.ext_iff]

/-- C4, counterexample: on a not-yet-full-size 100×100 canvas (the
canvas element's fallback size in Graph.tsx), `zoomByType(FIT)` on the
empty graph yields scale 5/6, not the claimed identity scale 1: the
zero-size bounding box still receives the 120-pixel padding, which does
not fit in a 100-pixel canvas. -/
theorem C4_counterexample :
    Visualization.getZoomScaleFactorToFitWholeGraph 100 100 ⟨[], []⟩ = 5/6 ∧
      (5/6 : ℚ) ≠ 1 := by
  constructor
  · norm_num [Visualization.getZoomScaleFactorToFitWholeGraph, Visualization.axisFit,
      GraphModel.getBoundingBox, BoundingBox.width, BoundingBox.height]
  · norm_num

/-- C4, amended: a canvas with either dimension 0 yields scale 1
exactly; the empty graph yields scale 1 whenever both canvas dimensions
are at least the 120-pixel padding (and min(canvas/120, 1) per axis
otherwise); in every case the result is strictly positive — no NaN,
infinity, or division by zero can arise, since the guarded branch
divides only by padded dimensions ≥ 120. -/
theorem C4_amended_fit_degenerate (cw ch : ℚ) (g : GraphModel)
    (rels : List RelationshipModel) (hw : 0 ≤ cw) (hh : 0 ≤ ch) :
    Visualization.getZoomScaleFactorToFitWholeGraph 0 ch g = 1 ∧
    Visualization.getZoomScaleFactorToFitWholeGraph cw 0 g = 1 ∧
    (120 ≤ cw → 120 ≤ ch →
      Visualization.getZoomScaleFactorToFitWholeGraph cw ch ⟨[], rels⟩ = 1) ∧
    0 < Visualization.getZoomScaleFactorToFitWholeGraph cw ch g := by
  refine ⟨?_, ?_, ?_, (getZoomScaleFactor_mem_Ioc cw ch g hw hh).1⟩
  · unfold Visualization.getZoomScaleFactorToFitWholeGraph
    rw [if_pos (Or.inl rfl)]
  · unfold Visualization.getZoomScaleFactorToFitWholeGraph
    rw [if_pos (Or.inr rfl)]
  · intro h120w h120h
    unfold Visualization.getZoomScaleFactorToFitWholeGraph
    split
    · rfl
    · have hbbw : (⟨[], rels⟩ : GraphModel).getBoundingBox.width = 0 := by
        simp [GraphModel.getBoundingBox, BoundingBox.width]
      have hbbh : (⟨[], rels⟩ : GraphModel).getBoundingBox.height = 0 := by
        simp [GraphModel.getBoundingBox, BoundingBox.height]
      rw [hbbw, hbbh]
      unfold Visualization.axisFit
      rw [if_neg (by linarith), if_neg (by linarith)]
      exact min_self 1

/-- C4, witness for the amended theorem with a 200×200 canvas. -/
theorem C4_amended_fit_degenerate_witness :
    Visualization.getZoomScaleFactorToFitWholeGraph 0 200 ⟨[⟨3, 4⟩], []⟩ = 1 ∧
    Visualization.getZoomScaleFactorToFitWholeGraph 200 0 ⟨[⟨3, 4⟩], []⟩ = 1 ∧
    (120 ≤ (200 : ℚ) → 120 ≤ (200 : ℚ) →
      Visualization.getZoomScaleFactorToFitWholeGraph 200 200 ⟨[], []⟩ = 1) ∧
    0 < Visualization.getZoomScaleFactorToFitWholeGraph 200 200 ⟨[⟨3, 4⟩], []⟩ :=
  C4_amended_fit_degenerate 200 200 ⟨[⟨3, 4⟩], []⟩ [] (by norm_num) (by norm_num)

/-- C5, amended: with a 2D context available, `render` clears the
surface first and then draws only node geometry — no relationship
geometry at all — placing each node at
`(canvasWidth / 2 + scale · x, canvasHeight / 2 + scale · y)`, i.e.
under the translate-to-viewport-center-then-scale transform. -/
theorem C5_amended_render_nodes_only (st : Visualization.RenderState) (cw ch : ℚ) :
    (Visualization.render st cw ch true).commands =
      DrawCmd.clear :: st.graph.nodes.map (fun n =>
        DrawCmd.node (cw / 2 + st.scale * n.x) (ch / 2 + st.scale * n.y)) ∧
    ((Visualization.render st cw ch true).commands.all
      fun c => !c.isRelationship) = true := by
  constructor
  · simp [Visualization.render, Visualization.renderCommands, screenMap]
  · simp only [Visualization.render, if_pos, Visualization.renderCommands,
      List.all_cons, List.all_eq_true, List.mem_map, Bool.and_eq_true]
    refine ⟨rfl, fun c hc => ?_⟩
    obtain ⟨n, _, h⟩ := hc
    rw [← h]
    rfl

/-- C5, counterexample: for a graph holding a relationship, the render
output contains no relationship-drawing command at all, so relationship
geometry is not drawn (in particular not before the node geometry). -/
theorem C5_counterexample :
    (⟨[⟨0, 0⟩, ⟨10, 0⟩], [⟨0, 1⟩]⟩ : GraphModel).relationships ≠ [] ∧
      (Visualization.renderCommands 200 200 1
          ⟨[⟨0, 0⟩, ⟨10, 0⟩], [⟨0, 1⟩]⟩).all
        (fun c => !c.isRelationship) = true := by
  exact ⟨by simp, by rfl⟩

/-- C8, amended: when the 2D context is unavailable, `render` reports
the `'null ctx'` diagnostic, issues no drawing command, returns
normally (it is a total function — no exception), and leaves the graph
and the scale unchanged; the geometry frame, however, has already been
recomputed by `geometry.onTick`, which runs before the context check.
The force simulation re-invokes `render` on the next tick. -/
theorem C8_amended_render_without_ctx (st : Visualization.RenderState) (cw ch : ℚ) :
    (Visualization.render st cw ch false).diagnostics = ["null ctx"] ∧
    (Visualization.render st cw ch false).commands = [] ∧
    (Visualization.render st cw ch false).state.graph = st.graph ∧
    (Visualization.render st cw ch false).state.scale = st.scale ∧
    (Visualization.render st cw ch false).state.geometryFrame =
      GraphGeometryModel.onTick st.graph :=
  ⟨rfl, rfl, rfl, rfl, rfl⟩

/-- C8, counterexample: with the context unavailable, `render` still
mutates the visualization state — `geometry.onTick(this.graph)` runs
before the context check, so a stale geometry frame is replaced even
though nothing is drawn. -/
theorem C8_counterexample :
    (Visualization.render ⟨[], ⟨[⟨1, 2⟩], []⟩, 1⟩ 200 200 false).state ≠
      ⟨[], ⟨[⟨1, 2⟩], []⟩, 1⟩ := by
  intro h
  have h2 := congrArg Visualization.RenderState.geometryFrame h
  simp [Visualization.render, GraphGeometryModel.onTick] at h2

/-- Once the info message is displayed, further suppressed wheel events
leave the state untouched, still fire the info signal, and do not
display the message again. -/
lemma wheelRun_already_displaying (zoomUpdate : ℚ → WheelEvent → ℚ) (s : ℚ)
    (es : List WheelEvent) (h : ∀ e ∈ es, modKeySelected e = false) :
    wheelRun zoomUpdate true true ⟨s, true⟩ es =
      (⟨s, true⟩, List.replicate es.length true,
        List.replicate es.length false) := by
  induction es with
  | nil => rfl
  | cons e es ih =>
      have he : modKeySelected e = false := h e (List.mem_cons_self e es)
      have hrest := ih fun e' he' => h e' (List.mem_cons_of_mem e he')
      simp [wheelRun, wheelStep, zoomFilter, he,
        Graph.handleDisplayZoomWheelInfoMessage, hrest, List.replicate_succ]

/-- C6: with the requires-modifier-key policy on (and the info message
enabled), a run of wheel events carrying no modifier key never changes
the zoom scale — regardless of how the zoom behavior would have updated
it — fires the show-info-message signal on every event, and displays
the info message exactly on the first suppressed event, never again. -/
theorem C6_wheel_gating (zoomUpdate : ℚ → WheelEvent → ℚ) (s : ℚ)
    (es : List WheelEvent) (hmod : ∀ e ∈ es, modKeySelected e = false)
    (hne : es ≠ []) :
    (wheelRun zoomUpdate true true ⟨s, false⟩ es).1.scale = s ∧
    (wheelRun zoomUpdate true true ⟨s, false⟩ es).2.1 =
      List.replicate es.length true ∧
    (wheelRun zoomUpdate true true ⟨s, false⟩ es).2.2 =
      true :: List.replicate (es.length - 1) false := by
  cases es with
  | nil => exact absurd rfl hne
  | cons e es =>
      have he : modKeySelected e = false := hmod e (List.mem_cons_self e es)
      have hrest := wheelRun_already_displaying zoomUpdate s es
        fun e' he' => hmod e' (List.mem_cons_of_mem e he')
      simp [wheelRun, wheelStep, zoomFilter, he,
        Graph.handleDisplayZoomWheelInfoMessage, hrest, List.replicate_succ]

/-- C6, witness: three modifier-free wheel events starting at scale 1,
against a zoom update that would add 1 to the scale on every event. -/
theorem C6_wheel_gating_witness :
    (wheelRun (fun q _ => q + 1) true true ⟨1, false⟩
        [⟨false, false, false⟩, ⟨false, false, false⟩,
          ⟨false, false, false⟩]).1.scale = 1 ∧
    (wheelRun (fun q _ => q + 1) true true ⟨1, false⟩
        [⟨false, false, false⟩, ⟨false, false, false⟩,
          ⟨false, false, false⟩]).2.1 =
      List.replicate 3 true ∧
    (wheelRun (fun q _ => q + 1) true true ⟨1, false⟩
        [⟨false, false, false⟩, ⟨false, false, false⟩,
          ⟨false, false, false⟩]).2.2 =
      true :: List.replicate (3 - 1) false :=
  C6_wheel_gating (fun q _ => q + 1) 1
    [⟨false, false, false⟩, ⟨false, false, false⟩, ⟨false, false, false⟩]
    (by decide) (by decide)

/-- C9: for positive canvas dimensions the fit scale lies in (0, 1],
and it equals 1 exactly when the padded bounding box already fits the
canvas in both dimensions — `zoomByType(FIT)` never enlarges beyond the
identity scale. -/
theorem C9_fit_scale_in_unit_interval (cw ch : ℚ) (g : GraphModel)
    (hw : 0 < cw) (hh : 0 < ch) :
    0 < Visualization.getZoomScaleFactorToFitWholeGraph cw ch g ∧
    Visualization.getZoomScaleFactorToFitWholeGraph cw ch g ≤ 1 ∧
    (g.getBoundingBox.width + 120 ≤ cw → g.getBoundingBox.height + 120 ≤ ch →
      Visualization.getZoomScaleFactorToFitWholeGraph cw ch g = 1) := by
  obtain ⟨hpos, hle⟩ := getZoomScaleFactor_mem_Ioc cw ch g hw.le hh.le
  refine ⟨hpos, hle, fun hfw hfh => ?_⟩
  unfold Visualization.getZoomScaleFactorToFitWholeGraph
  rw [if_neg (by push_neg; exact ⟨ne_of_gt hw, ne_of_gt hh⟩)]
  unfold Visualization.axisFit
  rw [if_neg (not_lt.mpr hfw), if_neg (not_lt.mpr hfh)]
  exact min_self 1

/-- C9, witness: a single node at the origin in a 250×250 canvas (its
padded box is 220×220, which fits, so the scale is exactly 1). -/
theorem C9_fit_scale_in_unit_interval_witness :
    0 < Visualization.getZoomScaleFactorToFitWholeGraph 250 250 ⟨[⟨0, 0⟩], []⟩ ∧
    Visualization.getZoomScaleFactorToFitWholeGraph 250 250 ⟨[⟨0, 0⟩], []⟩ ≤ 1 ∧
    ((⟨[⟨0, 0⟩], []⟩ : GraphModel).getBoundingBox.width + 120 ≤ 250 →
      (⟨[⟨0, 0⟩], []⟩ : GraphModel).getBoundingBox.height + 120 ≤ 250 →
      Visualization.getZoomScaleFactorToFitWholeGraph 250 250 ⟨[⟨0, 0⟩], []⟩ = 1) :=
  C9_fit_scale_in_unit_interval 250 250 ⟨[⟨0, 0⟩], []⟩ (by norm_num) (by norm_num)

/-- Unrolling the registration fold: the callbacks recorded for an
event are the initial ones followed by exactly the ones registered for
that event, in registration order. -/
lemma registerAll_foldl (regs : List (String × Callback)) (cbs : Callbacks)
    (e : String) :
    (regs.foldl (fun m p => Visualization.onEvent m p.1 p.2) cbs) e =
      cbs e ++ (regs.filter fun p => p.1 == e).map Prod.snd := by
  induction regs generalizing cbs with
  | nil => simp
  | cons p regs ih =>
      rw [List.foldl_cons, ih]
      by_cases hp : p.1 = e
      · subst hp
        simp [Visualization.onEvent, List.filter_cons]
      · have hp' : ¬(e = p.1) := fun h => hp h.symm
        simp [Visualization.onEvent, List.filter_cons, hp, hp']

/-- C10: after any sequence of `on` registrations, `trigger(e, args)`
invokes exactly the callbacks registered for `e`, in registration
order, each with the trigger's arguments — so registrations under any
other event name are invisible to `e` — and triggering on the empty
registry performs no invocation at all. -/
theorem C10_trigger_invokes_registered (regs : List (String × Callback))
    (e : String) (args : List ℤ) :
    Visualization.trigger (Visualization.registerAll regs) e args =
      (regs.filter fun p => p.1 == e).map (fun p => (p.2, args)) ∧
    Visualization.trigger Callbacks.empty e args = [] := by
  constructor
  · unfold Visualization.trigger Visualization.registerAll
    rw [registerAll_foldl]
    simp [Callbacks.empty, List.map_map, Function.comp]
  · rfl

end Neo4jViz
